import Mathlib

/-!
Verification of the `jod_thread` library (join-on-drop thread handles).

The embedding models `src/lib.rs`: a `JoinHandle` wraps an optional slot
holding the native waitable handle; `join`, `detach` and the `Drop`
implementation each take the slot's value at most once.  A native handle
is modelled by the thread's identity metadata together with the outcome
its blocking wait will report (the spawned closure's value, or the panic
it raised).  Every operation reports, besides its return value, whether
it performed a blocking wait, the panic it raised in the calling thread
(if any), and the state of the slot afterwards.
-/

namespace JodThread

/-- Payload of a panic (the failure cause captured from a thread). -/
structure PanicPayload where
  msg : String

/-- Identity/metadata of an OS thread (`std::thread::Thread`). -/
structure Thread where
  id : Nat
  threadName : Option String

/-- The native waitable handle (`std::thread::JoinHandle<T>`): the
thread's identity plus the outcome a blocking wait on it reports —
`Except.ok v` when the spawned closure returned `v`, `Except.error p`
when it panicked with payload `p`. -/
structure StdJoinHandle (T : Type) where
  thread : Thread
  outcome : Except PanicPayload T

/-- The jod `JoinHandle<T>`: an ownership slot that holds the native
handle while the thread has not yet been consumed
(`struct JoinHandle<T>(Option<std::thread::JoinHandle<T>>)`). -/
structure JoinHandle (T : Type) where
  slot : Option (StdJoinHandle T)

/-- Panic raised in the calling thread by an operation: the `unwrap` of
an empty `Option` (slot already consumed), or the re-raising of the
failure captured from the spawned thread. -/
inductive RaisedPanic where
  | unwrapNone : RaisedPanic
  | propagated : PanicPayload → RaisedPanic

/-- Observable result of an operation on a `JoinHandle`: whether it
performed a blocking wait on the native thread, the panic it raised in
the calling thread (if any), the value it returned normally (if any),
and the state of the slot afterwards. -/
structure OpResult (T A : Type) where
  waited : Bool
  raised : Option RaisedPanic
  ret : Option A
  post : JoinHandle T

/-- Embeds `impl From<std::thread::JoinHandle<T>> for JoinHandle<T>`:
construction wraps a freshly created native handle, `JoinHandle(Some(inner))`. -/
def JoinHandle.from {T : Type} (inner : StdJoinHandle T) : JoinHandle T :=
  ⟨some inner⟩

/-- Embeds `JoinHandle::thread` — `self.0.as_ref().unwrap().thread()`.  Borrows
the slot without consuming it and without waiting; the `unwrap` panics
when the slot is empty. -/
def JoinHandle.thread {T : Type} (h : JoinHandle T) : OpResult T Thread :=
  match h.slot with
  | none => ⟨false, some RaisedPanic.unwrapNone, none, h⟩
  | some inner => ⟨false, none, some inner.thread, h⟩

/-- Embeds `JoinHandle::join` — `let inner = self.0.take().unwrap(); inner.join().unwrap()`.
Takes the slot's value, waits on the native thread, and unwraps the
outcome: a captured failure is re-raised in the caller. -/
def JoinHandle.join {T : Type} (h : JoinHandle T) : OpResult T T :=
  match h.slot with
  | none => ⟨false, some RaisedPanic.unwrapNone, none, ⟨none⟩⟩
  | some inner =>
    match inner.outcome with
    | Except.ok v => ⟨true, none, some v, ⟨none⟩⟩
    | Except.error p => ⟨true, some (RaisedPanic.propagated p), none, ⟨none⟩⟩

/-- Embeds `JoinHandle::detach` — `let inner = self.0.take().unwrap(); inner`.
Takes the slot's value and returns the raw native handle without any
wait. -/
def JoinHandle.detach {T : Type} (h : JoinHandle T) : OpResult T (StdJoinHandle T) :=
  match h.slot with
  | none => ⟨false, some RaisedPanic.unwrapNone, none, ⟨none⟩⟩
  | some inner => ⟨false, none, some inner, ⟨none⟩⟩

/-- Embeds `impl Drop for JoinHandle` — `if let Some(inner) = self.0.take() {
let res = inner.join(); if res.is_err() && !std::thread::panicking() {
res.unwrap() } }`.  `panicking` is whether the current thread is already
unwinding. -/
def JoinHandle.dropHandle {T : Type} (panicking : Bool) (h : JoinHandle T) :
    OpResult T Unit :=
  match h.slot with
  | none => ⟨false, none, some (), ⟨none⟩⟩
  | some inner =>
    match inner.outcome with
    | Except.ok _ => ⟨true, none, some (), ⟨none⟩⟩
    | Except.error p =>
      if panicking then ⟨true, none, some (), ⟨none⟩⟩
      else ⟨true, some (RaisedPanic.propagated p), none, ⟨none⟩⟩

/-- Modelled from the spec: dropping (or leaking) the raw native
waitable handle returned by `detach` is behavior of the external Native
Thread Facility, not code under `src/`; per the spec it performs no
implicit wait and re-raises no failure. -/
def StdJoinHandle.dropRaw {T : Type} (_inner : StdJoinHandle T) :
    Bool × Option RaisedPanic :=
  (false, none)

/-- A terminal consumption event on a handle: explicit join, explicit
detach, or drop.  Each of the three paths in the source takes the
slot's value (`self.0.take()`). -/
inductive Event where
  | join : Event
  | detach : Event
  | drop : Event

/-- Applying a consumption event: the value the event's `take` obtains
from the slot, and the handle state afterwards. -/
def Event.apply {T : Type} (panicking : Bool) (e : Event) (h : JoinHandle T) :
    Option (StdJoinHandle T) × JoinHandle T :=
  match e with
  | Event.join => (h.slot, (h.join).post)
  | Event.detach => (h.slot, (h.detach).post)
  | Event.drop => (h.slot, (h.dropHandle panicking).post)

/-- Values obtained by the `take` of each event in a sequence, threading
the handle state through. -/
def runEvents {T : Type} (panicking : Bool) (h : JoinHandle T) :
    List Event → List (Option (StdJoinHandle T))
  | [] => []
  | e :: es =>
    (e.apply panicking h).1 :: runEvents panicking (e.apply panicking h).2 es

/-- Handle states after each event of a sequence. -/
def statesAfter {T : Type} (panicking : Bool) (h : JoinHandle T) :
    List Event → List (JoinHandle T)
  | [] => []
  | e :: es =>
    (e.apply panicking h).2 :: statesAfter panicking (e.apply panicking h).2 es

/-- Creation error of the native thread-creation call
(`std::io::Error` in the source). -/
structure CreationError where
  code : Nat

/-- Configuration accumulated by `std::thread::Builder`: optional name
and optional stack size. -/
structure StdBuilder where
  nameCfg : Option String
  stackSizeCfg : Option Nat

/-- Embeds `std::thread::Builder::new` — default configuration. -/
def StdBuilder.new : StdBuilder :=
  ⟨none, none⟩

/-- Embeds `std::thread::Builder::name`. -/
def StdBuilder.name (b : StdBuilder) (n : String) : StdBuilder :=
  { b with nameCfg := some n }

/-- Embeds `std::thread::Builder::stack_size`. -/
def StdBuilder.stack_size (b : StdBuilder) (s : Nat) : StdBuilder :=
  { b with stackSizeCfg := some s }

/-- Modelled from the spec: the external Native Thread Facility's
creation decision.  Given the accumulated configuration it either fails
with a creation error (e.g. resource exhaustion) or creates a thread and
reports its identity; on success the waitable handle it returns reports
exactly the spawned closure's outcome. -/
structure Facility where
  create : StdBuilder → Except CreationError Thread

/-- Embeds `std::thread::Builder::spawn` as seen by this library: ask the
facility to create the thread; on success the returned native handle
pairs the new thread's identity with the closure's outcome (the closure
is represented by the outcome its run produces). -/
def StdBuilder.spawn {T : Type} (fac : Facility) (b : StdBuilder)
    (outcome : Except PanicPayload T) : Except CreationError (StdJoinHandle T) :=
  (fac.create b).map fun t => ⟨t, outcome⟩

/-- Embeds `pub struct Builder(std::thread::Builder)`. -/
structure Builder where
  inner : StdBuilder

/-- Embeds `Builder::new`. -/
def Builder.new : Builder :=
  ⟨StdBuilder.new⟩

/-- Embeds `Builder::name` — `Builder(self.0.name(name))`. -/
def Builder.name (b : Builder) (n : String) : Builder :=
  ⟨b.inner.name n⟩

/-- Embeds `Builder::stack_size` — `Builder(self.0.stack_size(size))`. -/
def Builder.stack_size (b : Builder) (s : Nat) : Builder :=
  ⟨b.inner.stack_size s⟩

/-- Embeds `Builder::spawn` — `self.0.spawn(f).map(JoinHandle::from)`. -/
def Builder.spawn {T : Type} (fac : Facility) (b : Builder)
    (outcome : Except PanicPayload T) : Except CreationError (JoinHandle T) :=
  (b.inner.spawn fac outcome).map JoinHandle.from

/-- Embeds `pub fn spawn` — `Builder::new().spawn(f).expect("failed to spawn thread")`.
`Except.error` models the `expect` panic, fatal to the calling thread,
carrying the diagnostic message. -/
def spawn {T : Type} (fac : Facility) (outcome : Except PanicPayload T) :
    Except PanicPayload (JoinHandle T) :=
  match Builder.spawn fac Builder.new outcome with
  | Except.ok h => Except.ok h
  | Except.error _ => Except.error ⟨"failed to spawn thread"⟩

/-- Embeds `impl fmt::Debug for JoinHandle` — `f.pad("JoinHandle \x7b .. \x7d")`;
the formatter never inspects the slot. -/
def JoinHandle.fmtDebug {T : Type} (_h : JoinHandle T) : String :=
  "JoinHandle \x7b .. \x7d"

/-- After any consumption event the slot is empty. -/
theorem Event.apply_post_slot {T : Type} (panicking : Bool) (e : Event)
    (h : JoinHandle T) : ((e.apply panicking h).2).slot = none := by
  rcases h with ⟨_ | ⟨t, _ | _⟩⟩ <;> cases e <;> cases panicking <;> rfl

/-- The value an event's take obtains is exactly the slot's content. -/
theorem Event.apply_fst {T : Type} (panicking : Bool) (e : Event)
    (h : JoinHandle T) : (e.apply panicking h).1 = h.slot := by
  cases e <;> rfl

/-- On a handle whose slot is already empty, every later event's take
obtains nothing. -/
theorem runEvents_empty {T : Type} (panicking : Bool) (h : JoinHandle T)
    (hs : h.slot = none) (es : List Event) :
    runEvents panicking h es = List.replicate es.length none := by
  induction es generalizing h with
  | nil => rfl
  | cons e es ih =>
    rw [runEvents, List.length_cons, List.replicate_succ, Event.apply_fst, hs,
      ih _ (Event.apply_post_slot panicking e h)]

/-- On a handle whose slot is already empty, every later state has an
empty slot. -/
theorem statesAfter_empty_slot {T : Type} (panicking : Bool) (h : JoinHandle T)
    (es : List Event) :
    ∀ h' ∈ statesAfter panicking h es, h'.slot = none := by
  induction es generalizing h with
  | nil => intro h' hh; cases hh
  | cons e es ih =>
    intro h' hh
    rcases List.mem_cons.mp hh with rfl | hh
    · exact Event.apply_post_slot panicking e h
    · exact ih _ h' hh

/-- C1: for a handle whose slot is still occupied and whose spawned
closure panicked, the drop rule waits on the thread, re-raises the
captured failure in the dropping context when the current thread is not
already panicking, suppresses it when it is, and empties the slot. -/
theorem drop_rule_panicked {T : Type} (inner : StdJoinHandle T)
    (p : PanicPayload) (panicking : Bool) (hp : inner.outcome = Except.error p) :
    ((JoinHandle.from inner).dropHandle panicking).waited = true ∧
    ((JoinHandle.from inner).dropHandle panicking).raised =
      (if panicking then none else some (RaisedPanic.propagated p)) ∧
    ((JoinHandle.from inner).dropHandle panicking).post.slot = none := by
  simp only [JoinHandle.dropHandle, JoinHandle.from, hp]
  cases panicking <;> exact ⟨rfl, rfl, rfl⟩

/-- Witness for C1: a concrete panicked thread, dropped while not
already panicking, re-raises the failure. -/
theorem drop_rule_panicked_witness :
    ((JoinHandle.from (⟨⟨0, none⟩, Except.error ⟨"boom"⟩⟩ : StdJoinHandle Nat)).dropHandle
        false).waited = true ∧
    ((JoinHandle.from (⟨⟨0, none⟩, Except.error ⟨"boom"⟩⟩ : StdJoinHandle Nat)).dropHandle
        false).raised =
      (if false then none else some (RaisedPanic.propagated ⟨"boom"⟩)) ∧
    ((JoinHandle.from (⟨⟨0, none⟩, Except.error ⟨"boom"⟩⟩ : StdJoinHandle Nat)).dropHandle
        false).post.slot = none :=
  drop_rule_panicked ⟨⟨0, none⟩, Except.error ⟨"boom"⟩⟩ ⟨"boom"⟩ false rfl

/-- C2: from construction the slot holds the native handle; in any
nonempty sequence of consumption events only the first take obtains a
value, and after every event the slot is empty — exactly one consumption
can ever execute. -/
theorem slot_single_consumption {T : Type} (inner : StdJoinHandle T)
    (panicking : Bool) (es : List Event) (hne : es ≠ []) :
    (JoinHandle.from inner).slot = some inner ∧
    runEvents panicking (JoinHandle.from inner) es =
      some inner :: List.replicate (es.length - 1) none ∧
    ∀ h' ∈ statesAfter panicking (JoinHandle.from inner) es, h'.slot = none := by
  refine ⟨rfl, ?_, statesAfter_empty_slot panicking _ es⟩
  match es, hne with
  | e :: es, _ =>
    rw [runEvents, List.length_cons, Nat.add_sub_cancel, Event.apply_fst,
      runEvents_empty panicking _ (Event.apply_post_slot panicking e _) es]
    rfl

/-- Witness for C2: a join followed by a drop; only the join's take
obtains the native handle. -/
theorem slot_single_consumption_witness :
    (JoinHandle.from (⟨⟨0, none⟩, Except.ok 7⟩ : StdJoinHandle Nat)).slot =
      some ⟨⟨0, none⟩, Except.ok 7⟩ ∧
    runEvents false (JoinHandle.from (⟨⟨0, none⟩, Except.ok 7⟩ : StdJoinHandle Nat))
        [Event.join, Event.drop] =
      some ⟨⟨0, none⟩, Except.ok 7⟩ ::
        List.replicate ([Event.join, Event.drop].length - 1) none ∧
    ∀ h' ∈ statesAfter false
        (JoinHandle.from (⟨⟨0, none⟩, Except.ok 7⟩ : StdJoinHandle Nat))
        [Event.join, Event.drop], h'.slot = none :=
  slot_single_consumption ⟨⟨0, none⟩, Except.ok 7⟩ false [Event.join, Event.drop]
    (by simp)

/-- C3: joining a handle whose spawned closure completed normally with
`v` waits on the thread, returns exactly `v`, raises nothing, and
consumes the handle. -/
theorem join_normal {T : Type} (inner : StdJoinHandle T) (v : T)
    (hv : inner.outcome = Except.ok v) :
    (JoinHandle.from inner).join = ⟨true, none, some v, ⟨none⟩⟩ := by
  simp only [JoinHandle.join, JoinHandle.from, hv]

/-- Witness for C3: joining a thread that returned 42 yields 42. -/
theorem join_normal_witness :
    (JoinHandle.from (⟨⟨0, none⟩, Except.ok 42⟩ : StdJoinHandle Nat)).join =
      ⟨true, none, some 42, ⟨none⟩⟩ :=
  join_normal ⟨⟨0, none⟩, Except.ok 42⟩ 42 rfl

/-- C4: joining a handle whose spawned closure panicked waits on the
thread and re-raises that failure in the caller instead of returning
normally or swallowing it. -/
theorem join_panicked {T : Type} (inner : StdJoinHandle T) (p : PanicPayload)
    (hp : inner.outcome = Except.error p) :
    (JoinHandle.from inner).join =
      ⟨true, some (RaisedPanic.propagated p), none, ⟨none⟩⟩ := by
  simp only [JoinHandle.join, JoinHandle.from, hp]

/-- Witness for C4: joining a thread that panicked with "boom" re-raises
that failure. -/
theorem join_panicked_witness :
    (JoinHandle.from (⟨⟨0, none⟩, Except.error ⟨"boom"⟩⟩ : StdJoinHandle Nat)).join =
      ⟨true, some (RaisedPanic.propagated ⟨"boom"⟩), none, ⟨none⟩⟩ :=
  join_panicked ⟨⟨0, none⟩, Except.error ⟨"boom"⟩⟩ ⟨"boom"⟩ rfl

/-- C5: detach consumes the handle and returns the raw native handle
without waiting and without raising; afterwards the join-on-drop rule
never fires (dropping the emptied handle performs no wait and raises
nothing), and dropping the returned raw handle performs no implicit wait
and no failure re-raising. -/
theorem detach_opts_out {T : Type} (inner : StdJoinHandle T) (panicking : Bool) :
    (JoinHandle.from inner).detach = ⟨false, none, some inner, ⟨none⟩⟩ ∧
    ((JoinHandle.from inner).detach.post.dropHandle panicking) =
      ⟨false, none, some (), ⟨none⟩⟩ ∧
    inner.dropRaw = (false, none) :=
  ⟨rfl, rfl, rfl⟩

/-- C6: the convenience `spawn` behaves as `Builder::new().spawn` —
on successful creation both produce the same handle, in the Owned state;
on creation failure `spawn` raises a fatal panic with the diagnostic
instead of returning the error value. -/
theorem spawn_equiv_builder {T : Type} (fac : Facility)
    (outcome : Except PanicPayload T) :
    (∀ h : JoinHandle T, Builder.spawn fac Builder.new outcome = Except.ok h →
      spawn fac outcome = Except.ok h ∧ h.slot.isSome = true) ∧
    (∀ e : CreationError, Builder.spawn fac Builder.new outcome = Except.error e →
      spawn fac outcome = Except.error ⟨"failed to spawn thread"⟩) := by
  constructor
  · intro h hh
    refine ⟨by rw [spawn, hh], ?_⟩
    rcases hc : fac.create Builder.new.inner with e | t
    · rw [Builder.spawn, StdBuilder.spawn, hc] at hh; cases hh
    · rw [Builder.spawn, StdBuilder.spawn, hc] at hh
      cases hh
      rfl
  · intro e he
    rw [spawn, he]

/-- Witness for C6: with a facility that always succeeds, the fatal and
the fallible spawn produce the same Owned handle. -/
theorem spawn_equiv_builder_witness :
    spawn (⟨fun _ => Except.ok ⟨0, none⟩⟩ : Facility) (Except.ok (37 : Nat)) =
      Except.ok (JoinHandle.from ⟨⟨0, none⟩, Except.ok 37⟩) ∧
    (JoinHandle.from (⟨⟨0, none⟩, Except.ok 37⟩ : StdJoinHandle Nat)).slot.isSome =
      true :=
  (spawn_equiv_builder ⟨fun _ => Except.ok ⟨0, none⟩⟩ (Except.ok 37)).1
    (JoinHandle.from ⟨⟨0, none⟩, Except.ok 37⟩) rfl

/-- C7: `Builder::spawn` returns a creation error exactly when the
facility's single creation call fails, passing that error through; on
success it wraps the freshly created native handle in a handle whose
slot is occupied by it (Owned). -/
theorem builder_spawn_spec {T : Type} (fac : Facility) (b : Builder)
    (outcome : Except PanicPayload T) :
    (∀ e : CreationError, fac.create b.inner = Except.error e →
      Builder.spawn fac b outcome = Except.error e) ∧
    (∀ t : Thread, fac.create b.inner = Except.ok t →
      Builder.spawn fac b outcome = Except.ok (JoinHandle.from ⟨t, outcome⟩) ∧
      (JoinHandle.from (⟨t, outcome⟩ : StdJoinHandle T)).slot = some ⟨t, outcome⟩) ∧
    ((Builder.spawn fac b outcome).isOk = (fac.create b.inner).isOk) := by
  refine ⟨?_, ?_, ?_⟩
  · intro e he; rw [Builder.spawn, StdBuilder.spawn, he]; rfl
  · intro t ht
    exact ⟨by rw [Builder.spawn, StdBuilder.spawn, ht]; rfl, rfl⟩
  · rcases hc : fac.create b.inner with e | t <;>
      rw [Builder.spawn, StdBuilder.spawn, hc] <;> rfl

/-- Witness for C7: a facility whose creation call fails with error code
9 makes `Builder::spawn` return exactly that error. -/
theorem builder_spawn_spec_witness :
    Builder.spawn (⟨fun _ => Except.error ⟨9⟩⟩ : Facility) Builder.new
      (Except.ok (5 : Nat)) = Except.error ⟨9⟩ :=
  (builder_spawn_spec ⟨fun _ => Except.error ⟨9⟩⟩ Builder.new (Except.ok 5)).1
    ⟨9⟩ rfl

/-- C8: `JoinHandle::thread` never waits and never consumes the slot;
while the slot is occupied it returns the underlying thread's identity,
and on an empty slot it panics (the unwrap of a vacated slot). -/
theorem thread_identity_spec {T : Type} (h : JoinHandle T) :
    (h.thread).waited = false ∧
    (h.thread).post = h ∧
    (∀ inner : StdJoinHandle T, h.slot = some inner →
      h.thread = ⟨false, none, some inner.thread, h⟩) ∧
    (h.slot = none →
      (h.thread).raised = some RaisedPanic.unwrapNone ∧ (h.thread).ret = none) := by
  rcases h with ⟨_ | ⟨t, o⟩⟩
  · refine ⟨rfl, rfl, ?_, ?_⟩
    · intro inner hi; cases hi
    · intro _; exact ⟨rfl, rfl⟩
  · refine ⟨rfl, rfl, ?_, ?_⟩
    · intro inner hi; cases hi; rfl
    · intro hn; cases hn

/-- Witness for C8: on an occupied handle, `thread` reports the identity
without waiting and leaves the handle unchanged. -/
theorem thread_identity_spec_witness :
    ((JoinHandle.from (⟨⟨3, some "w"⟩, Except.ok 1⟩ : StdJoinHandle Nat)).thread).waited
        = false ∧
    (JoinHandle.from (⟨⟨3, some "w"⟩, Except.ok 1⟩ : StdJoinHandle Nat)).thread =
      ⟨false, none, some ⟨3, some "w"⟩,
        JoinHandle.from ⟨⟨3, some "w"⟩, Except.ok 1⟩⟩ :=
  ⟨(thread_identity_spec (JoinHandle.from ⟨⟨3, some "w"⟩, Except.ok 1⟩)).1,
    (thread_identity_spec (JoinHandle.from ⟨⟨3, some "w"⟩, Except.ok 1⟩)).2.2.1
      ⟨⟨3, some "w"⟩, Except.ok 1⟩ rfl⟩

/-- C9: the builder setters are functional updates — each returns a new
builder value holding the new setting and preserving the other, leaving
the argument untouched as a value; `new` is the default configuration. -/
theorem builder_setters_functional (b : Builder) (n : String) (s : Nat) :
    b.name n = ⟨⟨some n, b.inner.stackSizeCfg⟩⟩ ∧
    b.stack_size s = ⟨⟨b.inner.nameCfg, some s⟩⟩ ∧
    Builder.new = ⟨⟨none, none⟩⟩ :=
  ⟨rfl, rfl, rfl⟩

/-- C10: the Debug formatting of a handle is the fixed string
"JoinHandle \x7b .. \x7d" whatever the slot holds: it reads nothing,
consumes nothing, and reveals nothing about the handle's state. -/
theorem debug_format_fixed {T : Type} (h : JoinHandle T) :
    h.fmtDebug = "JoinHandle \x7b .. \x7d" ∧
    (∀ h' : JoinHandle T, h.fmtDebug = h'.fmtDebug) :=
  ⟨rfl, fun _ => rfl⟩

end JodThread
